import Mathlib

/-!
Shallow embedding of the decision subsystem of the AI Governor bot:
the risk scoring engine (`risk_engine.py`), the trust engine
(`trust_engine.py`) and the anti-raid system (`anti_raid.py`), with the
default configuration of `settings.py`.

Python floats are modelled as exact rationals (`ℚ`); the one
transcendental operation (`math.exp` inside the sigmoid smoothing) is
modelled over the reals.  Python `datetime` values are modelled as
integer timestamps in seconds.  Python `dict` arguments whose values may
be arbitrary are modelled as association lists of `PyVal` (number or
string), and operations that would raise `TypeError` in Python on a
non-numeric operand are modelled in the `Except` monad.
-/

/-- Default configuration values from `settings.py` (class `Settings`).
Only the fields used by the decision subsystem are modelled; each value
is the default given in the source (no environment overrides). -/
structure Settings where
  RISK_WEIGHT_SPAM : ℚ
  RISK_WEIGHT_TOXIC : ℚ
  RISK_WEIGHT_SCAM : ℚ
  RISK_WEIGHT_ILLEGAL : ℚ
  RISK_WEIGHT_PHISHING : ℚ
  RISK_WEIGHT_NSFW : ℚ
  RISK_WEIGHT_FLOOD : ℚ
  RISK_WEIGHT_USER_HISTORY : ℚ
  RISK_WEIGHT_SIMILARITY : ℚ
  RISK_WEIGHT_LINK_SUSPICIOUS : ℚ
  RISK_THRESHOLD_CRITICAL : ℤ
  RISK_THRESHOLD_HIGH : ℤ
  RISK_THRESHOLD_MEDIUM : ℤ
  TRUST_INITIAL : ℤ
  TRUST_MAX : ℤ
  TRUST_MIN : ℤ
  TRUST_BONUS_POSITIVE : ℚ
  TRUST_PENALTY_VIOLATION : ℤ
  TRUST_PENALTY_MUTE : ℤ
  TRUST_PENALTY_BAN : ℤ
  TRUST_AUTO_RESTRICT_MEDIA : ℤ
  TRUST_AUTO_BAN : ℤ
  RAID_JOIN_THRESHOLD : ℕ
  RAID_TIME_WINDOW : ℕ
  RAID_NEW_ACCOUNT_DAYS : ℤ
  RAID_SIMILARITY_THRESHOLD : ℚ
  deriving DecidableEq

/-- The cached settings instance returned by `get_settings()` with all
defaults from `settings.py`. -/
def settings : Settings :=
  { RISK_WEIGHT_SPAM := 18/100
    RISK_WEIGHT_TOXIC := 14/100
    RISK_WEIGHT_SCAM := 16/100
    RISK_WEIGHT_ILLEGAL := 18/100
    RISK_WEIGHT_PHISHING := 14/100
    RISK_WEIGHT_NSFW := 12/100
    RISK_WEIGHT_FLOOD := 10/100
    RISK_WEIGHT_USER_HISTORY := 10/100
    RISK_WEIGHT_SIMILARITY := 8/100
    RISK_WEIGHT_LINK_SUSPICIOUS := 10/100
    RISK_THRESHOLD_CRITICAL := 85
    RISK_THRESHOLD_HIGH := 70
    RISK_THRESHOLD_MEDIUM := 50
    TRUST_INITIAL := 50
    TRUST_MAX := 100
    TRUST_MIN := 0
    TRUST_BONUS_POSITIVE := 8/10
    TRUST_PENALTY_VIOLATION := 5
    TRUST_PENALTY_MUTE := 8
    TRUST_PENALTY_BAN := 15
    TRUST_AUTO_RESTRICT_MEDIA := 25
    TRUST_AUTO_BAN := 10
    RAID_JOIN_THRESHOLD := 10
    RAID_TIME_WINDOW := 30
    RAID_NEW_ACCOUNT_DAYS := 7
    RAID_SIMILARITY_THRESHOLD := 7/10 }

/-- Python `round` at a given number of decimals uses banker's rounding
(round half to even).  `rhe q` is `round(q)` for a rational `q`. -/
def rhe (q : ℚ) : ℤ :=
  let f : ℤ := ⌊q⌋
  let r : ℚ := q - f
  if r < 1/2 then f
  else if 1/2 < r then f + 1
  else if f % 2 = 0 then f else f + 1

/-- Python `round(q, 2)`: round half to even at two decimal places. -/
def round2 (q : ℚ) : ℚ := (rhe (q * 100) : ℚ) / 100

theorem rhe_ge_floor (q : ℚ) : ⌊q⌋ ≤ rhe q := by
  unfold rhe
  dsimp only
  split_ifs <;> omega

theorem rhe_nonneg {q : ℚ} (h : 0 ≤ q) : 0 ≤ rhe q :=
  le_trans (Int.le_floor.mpr (by exact_mod_cast h)) (rhe_ge_floor q)

theorem rhe_le_of_le {q : ℚ} {n : ℤ} (h : q ≤ n) : rhe q ≤ n := by
  have hf : ⌊q⌋ ≤ n := by
    have := Int.floor_le_floor h
    simpa using this
  unfold rhe
  dsimp only
  split_ifs with h1 h2 h3
  · exact hf
  · -- here the fractional part exceeds 1/2, so `⌊q⌋ < q ≤ n`
    have hr : (0:ℚ) < q - ⌊q⌋ := lt_trans (by norm_num) h2
    have : (⌊q⌋ : ℚ) < (n : ℚ) := lt_of_lt_of_le (by linarith) h
    have : ⌊q⌋ < n := by exact_mod_cast this
    omega
  · exact hf
  · have hr : (0:ℚ) < q - ⌊q⌋ := by
      have : (1:ℚ)/2 ≤ q - ⌊q⌋ := le_of_not_lt h1
      linarith
    have : (⌊q⌋ : ℚ) < (n : ℚ) := lt_of_lt_of_le (by linarith) h
    have : ⌊q⌋ < n := by exact_mod_cast this
    omega

theorem rhe_intCast (n : ℤ) : rhe (n : ℚ) = n := by
  unfold rhe
  simp

theorem round2_nonneg {q : ℚ} (h : 0 ≤ q) : 0 ≤ round2 q := by
  unfold round2
  have : (0:ℤ) ≤ rhe (q * 100) := rhe_nonneg (by positivity)
  positivity

theorem round2_le_int {q : ℚ} {n : ℤ} (h : q ≤ n) : round2 q ≤ n := by
  unfold round2
  have h1 : q * 100 ≤ ((n * 100 : ℤ) : ℚ) := by push_cast; linarith
  have h2 : rhe (q * 100) ≤ n * 100 := rhe_le_of_le h1
  have h3 : ((rhe (q * 100)) : ℚ) ≤ ((n * 100 : ℤ) : ℚ) := by exact_mod_cast h2
  rw [div_le_iff₀ (by norm_num : (0:ℚ) < 100)]
  push_cast at h3 ⊢
  linarith

theorem round2_ge_half {q : ℚ} (h : 1/2 ≤ q) : 1/2 ≤ round2 q := by
  unfold round2
  have h1 : ((50:ℤ) : ℚ) ≤ q * 100 := by push_cast; linarith
  have h2 : (50:ℤ) ≤ ⌊q * 100⌋ := Int.le_floor.mpr h1
  have h3 : (50:ℤ) ≤ rhe (q * 100) := le_trans h2 (rhe_ge_floor _)
  have h4 : ((50:ℤ) : ℚ) ≤ (rhe (q * 100) : ℚ) := by exact_mod_cast h3
  rw [le_div_iff₀ (by norm_num : (0:ℚ) < 100)]
  push_cast at h4
  linarith

theorem round2_eq_self {q : ℚ} (h : ∃ m : ℤ, q * 100 = (m : ℚ)) : round2 q = q := by
  obtain ⟨m, hm⟩ := h
  unfold round2
  rw [hm, rhe_intCast, ← hm]
  field_simp

/-! ## Trust engine (`trust_engine.py`) -/

/-- Result record of a trust update (`TrustUpdate` dataclass). -/
structure TrustUpdate where
  new_score : ℚ
  old_score : ℚ
  change : ℚ
  reason : String
  restrictions_applied : List String
  deriving DecidableEq

/-- `TrustEngine._determine_restrictions`: restriction labels derived
from the (unrounded) new score. -/
def determine_restrictions (trust_score : ℚ) : List String :=
  (if trust_score < (settings.TRUST_AUTO_RESTRICT_MEDIA : ℚ) then [("media_restricted")] else [])
    ++ (if trust_score < (settings.TRUST_AUTO_BAN : ℚ) then [("auto_ban_candidate")] else [])

/-- Severity multiplier dictionary `{"low": 1, "medium": 2, "high": 3,
"critical": 5}` with `.get(severity, 1)` fallback, from the
`"violation"` branch of `calculate_trust_update`. -/
def violation_multiplier (severity : String) : ℚ :=
  if severity = ("low") then 1
  else if severity = ("medium") then 2
  else if severity = ("high") then 3
  else if severity = ("critical") then 5
  else 1

/-- `TrustEngine.calculate_trust_update`.  The current trust score read
from the database (`_get_current_trust`) is passed explicitly as
`current_trust`; the action dispatch, clamping to
`[TRUST_MIN, TRUST_MAX]` and two-decimal rounding follow the source. -/
def calculate_trust_update (current_trust : ℚ) (action_type : String)
    (severity : String) : TrustUpdate :=
  let old_score := current_trust
  let change : ℚ :=
    if action_type = ("positive_interaction") then settings.TRUST_BONUS_POSITIVE
    else if action_type = ("violation") then
      -(settings.TRUST_PENALTY_VIOLATION : ℚ) * violation_multiplier severity
    else if action_type = ("mute") then -(settings.TRUST_PENALTY_MUTE : ℚ)
    else if action_type = ("ban_attempt") then -(settings.TRUST_PENALTY_BAN : ℚ)
    else 0
  let reason : String :=
    if action_type = ("positive_interaction") then ("Positive interaction")
    else if action_type = ("violation") then ("Violation (") ++ severity ++ (")")
    else if action_type = ("mute") then ("User muted")
    else if action_type = ("ban_attempt") then ("Ban attempt")
    else ("")
  let new_score : ℚ :=
    max (settings.TRUST_MIN : ℚ) (min (settings.TRUST_MAX : ℚ) (current_trust + change))
  let restrictions := determine_restrictions new_score
  { new_score := round2 new_score
    old_score := round2 old_score
    change := round2 change
    reason := reason
    restrictions_applied := restrictions }

/-- `TrustEngine.calculate_trust_decay`: no decay within the first week
of inactivity, then two points per additional full week, floored at
`TRUST_MIN`.  `days_inactive` is a Python `int`; `//` is floor
division. -/
def calculate_trust_decay (current_score : ℚ) (days_inactive : ℤ) : ℚ :=
  if days_inactive < 7 then current_score
  else
    let decay : ℤ := ((days_inactive - 7).fdiv 7) * 2
    max (settings.TRUST_MIN : ℚ) (current_score - (decay : ℚ))

/-! ## Anti-raid system (`anti_raid.py`)

Timestamps (`datetime.utcnow()`, `joined_at`, `account_created_at`) are
modelled as integer seconds; the current wall-clock time is passed
explicitly as `now`. -/

/-- A user join event (`JoinEvent` dataclass). -/
structure JoinEvent where
  user_id : ℤ
  username : String
  account_created_at : Option ℤ
  joined_at : ℤ
  deriving DecidableEq

/-- Raid detection result (`RaidDetectionResult` dataclass). -/
structure RaidDetectionResult where
  is_raid : Bool
  raid_type : String
  confidence : ℚ
  affected_users : List ℤ
  recommended_action : String
  trigger_reason : String
  deriving DecidableEq

/-- One step of splitting a character list into maximal digit runs, as
`re.findall` with the digit-run regex does in
`_analyze_username_patterns`.  The accumulator is the run currently
being built (to the right) and the finished runs. -/
def digit_runs_step (c : Char) (acc : List Char × List (List Char)) :
    List Char × List (List Char) :=
  if c.isDigit then (c :: acc.1, acc.2)
  else ([], if acc.1 = [] then acc.2 else acc.1 :: acc.2)

/-- All maximal digit runs of a username parsed as natural numbers, in
left-to-right order (`re.findall` of digit runs followed by `int`). -/
def extract_numbers (s : String) : List ℕ :=
  let acc := s.toList.foldr digit_runs_step ([], [])
  let runs := if acc.1 = [] then acc.2 else acc.1 :: acc.2
  runs.map (fun ds => ds.foldl (fun n c => 10 * n + (c.toNat - 48)) 0)

/-- Insert into an ascending list (used to model Python `sorted`). -/
def insert_asc (n : ℕ) : List ℕ → List ℕ
  | [] => [n]
  | m :: ms => if n ≤ m then n :: m :: ms else m :: insert_asc n ms

/-- Python `sorted` on a list of ints (ascending). -/
def sort_asc (l : List ℕ) : List ℕ := l.foldl (fun acc n => insert_asc n acc) []

/-- Number of adjacent pairs at distance exactly one in a sorted list
(the `sequential` count of `_analyze_username_patterns`). -/
def seq_adjacent_count : List ℕ → ℕ
  | a :: b :: rest => (if b = a + 1 then 1 else 0) + seq_adjacent_count (b :: rest)
  | _ => 0

/-- Test for the `^[a-zA-Z0-9]+$` "random character string" check:
length at least 8 with only ASCII letters and digits. -/
def is_random_chars (u : String) : Bool :=
  8 ≤ u.length && u.toList.all Char.isAlphanum

/-- Largest multiplicity of any element of a list (the
`max(counter.values()) if counter else 0` idiom applied to the
prefix/suffix counters). -/
def max_multiplicity (l : List (List Char)) : ℕ :=
  l.foldl (fun m p => max m (l.count p)) 0

/-- `AntiRaidSystem._analyze_username_patterns`: score in `[0,1]` built
from sequential numbers, random-character names and shared 4-character
beginnings/endings of the usernames of the window's join events. -/
def analyze_username_patterns (events : List JoinEvent) : ℚ :=
  if events.length < 5 then 0
  else
    let usernames := (events.map (fun e => e.username)).filter (fun u => u ≠ (""))
    if usernames.length < 5 then 0
    else
      let numbers := (usernames.map extract_numbers).flatten
      let random_chars := (usernames.filter is_random_chars).length
      let pres := (usernames.filter (fun u => 4 ≤ u.length)).map
        (fun u => (u.toList.take 4).map Char.toLower)
      let sufs := (usernames.filter (fun u => 4 ≤ u.length)).map
        (fun u => (u.toList.drop (u.toList.length - 4)).map Char.toLower)
      let sequential : ℕ :=
        if 3 ≤ numbers.length then
          let s := seq_adjacent_count (sort_asc numbers)
          if 2 ≤ s then s else 0
        else 0
      let max_pre := max_multiplicity pres
      let max_suf := max_multiplicity sufs
      let same_pre : ℕ := if 3 ≤ max_pre then max_pre else 0
      let same_suf : ℕ := if 3 ≤ max_suf then max_suf else 0
      let score : ℚ := min ((sequential : ℚ) / 5) (3/10)
        + min ((random_chars : ℚ) / 10) (3/10)
        + min ((same_pre : ℚ) / 5) (2/10)
        + min ((same_suf : ℚ) / 5) (2/10)
      min score 1

/-- Stable insertion into a list sorted by descending `joined_at`
(models `sorted(..., key=joined_at, reverse=True)`). -/
def insert_desc (e : JoinEvent) : List JoinEvent → List JoinEvent
  | [] => [e]
  | x :: xs => if e.joined_at ≤ x.joined_at then x :: insert_desc e xs else e :: x :: xs

/-- `AntiRaidSystem._get_similar_username_users`: ids of the ten most
recent joiners. -/
def get_similar_username_users (events : List JoinEvent) : List ℤ :=
  ((events.foldl (fun acc e => insert_desc e acc) []).take 10).map (fun e => e.user_id)

/-- `AntiRaidSystem.detect_raid` on the tracked window of one group.
The three checks in source order: mass-join velocity over the trailing
30 seconds (the literal `timedelta(seconds=30)` of the source), the
new-account wave (accounts younger than `RAID_NEW_ACCOUNT_DAYS` days),
and username-pattern similarity against the literal `0.7` bound. -/
def detect_raid (now : ℤ) (events : List JoinEvent) : RaidDetectionResult :=
  if events.length < 3 then
    { is_raid := false, raid_type := ("none"), confidence := 0, affected_users := [],
      recommended_action := ("none"), trigger_reason := ("Insufficient data") }
  else
    let recent_joins := events.filter (fun e => now - 30 < e.joined_at)
    if settings.RAID_JOIN_THRESHOLD ≤ recent_joins.length then
      { is_raid := true, raid_type := ("mass_join"),
        confidence := min ((recent_joins.length : ℚ) / 20) 1,
        affected_users := recent_joins.map (fun e => e.user_id),
        recommended_action := ("enable_slow_mode_restrict_new"),
        trigger_reason := toString recent_joins.length ++ (" joins in 30 seconds") }
    else
      let new_accounts := events.filter (fun e =>
        match e.account_created_at with
        | some t => now - settings.RAID_NEW_ACCOUNT_DAYS * 86400 < t
        | none => false)
      if 5 ≤ new_accounts.length then
        { is_raid := true, raid_type := ("new_account_wave"),
          confidence := min ((new_accounts.length : ℚ) / 10) 1,
          affected_users := new_accounts.map (fun e => e.user_id),
          recommended_action := ("restrict_new_accounts_verify"),
          trigger_reason := toString new_accounts.length ++ (" new accounts joined") }
      else
        let pattern_score := analyze_username_patterns events
        if 7/10 < pattern_score then
          { is_raid := true, raid_type := ("username_pattern"), confidence := pattern_score,
            affected_users := get_similar_username_users events,
            recommended_action := ("manual_review_ban_pattern"),
            trigger_reason := ("Suspicious username patterns detected") }
        else
          { is_raid := false, raid_type := ("none"), confidence := 0, affected_users := [],
            recommended_action := ("monitor"), trigger_reason := ("No raid patterns detected") }

/-- Per-group raid status record stored in `self.raid_status`
(`activate_raid_protection` creates it; `deactivate_raid_protection`
flips `active` and adds `ended_at`). -/
structure RaidStatus where
  active : Bool
  started_at : ℤ
  raid_type : String
  affected_users : List ℤ
  measures : List String
  ended_at : Option ℤ
  deriving DecidableEq

/-- Mutable state of an `AntiRaidSystem` instance: the per-group join
window `join_history` (a `defaultdict(list)`) and the per-group
`raid_status` dict (`none` means the key is absent). -/
structure ARState where
  join_history : ℤ → List JoinEvent
  raid_status : ℤ → Option RaidStatus

/-- Freshly constructed `AntiRaidSystem`: empty history, no statuses. -/
def initial_ar_state : ARState :=
  { join_history := fun _ => [], raid_status := fun _ => none }

/-- `AntiRaidSystem.activate_raid_protection`. -/
def activate_raid_protection (st : ARState) (now group_id : ℤ)
    (raid_result : RaidDetectionResult) : ARState :=
  { st with raid_status := fun g =>
      if g = group_id then
        some { active := true, started_at := now, raid_type := raid_result.raid_type,
               affected_users := raid_result.affected_users, measures := [], ended_at := none }
      else st.raid_status g }

/-- `AntiRaidSystem.record_join`: append the event, trim the window to
the last 5 minutes and at most 500 events, run detection, and activate
protection only when a raid is detected **and** `group_id` has no entry
at all in `raid_status` (`group_id not in self.raid_status`). -/
def record_join (st : ARState) (now group_id user_id : ℤ) (username : String)
    (account_created_at : Option ℤ) : ARState × RaidDetectionResult :=
  let event : JoinEvent :=
    { user_id := user_id, username := username,
      account_created_at := account_created_at, joined_at := now }
  let hist0 := st.join_history group_id ++ [event]
  let hist1 := hist0.filter (fun e => now - 300 < e.joined_at)
  let hist2 := hist1.drop (hist1.length - 500)
  let st1 : ARState :=
    { st with join_history := fun g => if g = group_id then hist2 else st.join_history g }
  let raid_result := detect_raid now (st1.join_history group_id)
  let st2 : ARState :=
    if raid_result.is_raid ∧ st1.raid_status group_id = none then
      activate_raid_protection st1 now group_id raid_result
    else st1
  (st2, raid_result)

/-- `AntiRaidSystem.deactivate_raid_protection`: if the group has a
status record, set `active` to false and stamp `ended_at`; the record
itself stays in the dict. -/
def deactivate_raid_protection (st : ARState) (now group_id : ℤ) : ARState :=
  match st.raid_status group_id with
  | some s =>
    { st with raid_status := fun g =>
        if g = group_id then some { s with active := false, ended_at := some now }
        else st.raid_status g }
  | none => st

/-- `AntiRaidSystem.is_raid_active`. -/
def is_raid_active (st : ARState) (group_id : ℤ) : Bool :=
  match st.raid_status group_id with
  | some s => s.active
  | none => false

/-! ## Risk scoring engine (`risk_engine.py`)

The `ai_analysis`, `user_history` and `context` arguments of
`calculate_risk` are Python dicts whose values are supplied by callers
and may be numbers or other objects.  We model a dict value as a `PyVal`
(number or string); using a non-numeric value in arithmetic or an order
comparison raises `TypeError` in Python, modelled by the `Except`
monad.  Python `==` between a string and a number is `False` and raises
nothing. -/

/-- A Python dict value: a number (int/float, modelled exactly as `ℚ`)
or a non-numeric object, represented by a string. -/
inductive PyVal where
  | num (q : ℚ)
  | str (s : String)
  deriving DecidableEq

/-- The Python exception a non-numeric operand raises. -/
inductive PyErr where
  | typeError
  deriving DecidableEq

/-- A Python dict with string keys. -/
abbrev PyDict := List (String × PyVal)

/-- `d.get(key, default)`. -/
def pyGet : PyDict → String → PyVal → PyVal
  | [], _, d => d
  | (k, v) :: rest, key, d => if k = key then v else pyGet rest key d

/-- Using a dict value as a number: succeeds on numbers, raises
`TypeError` otherwise. -/
def pnum : PyVal → Except PyErr ℚ
  | .num q => .ok q
  | .str _ => .error .typeError

/-- Python `value == 0`: false (no error) for non-numbers. -/
def py_eq_zero : PyVal → Bool
  | .num q => decide (q = 0)
  | .str _ => false

/-- Whether a value is numeric. -/
def is_num : PyVal → Bool
  | .num _ => true
  | .str _ => false

/-- Whether every value of a dict is numeric. -/
def all_num (m : PyDict) : Bool := m.all (fun kv => is_num kv.2)

/-- The numeric value of `d.get(key, default)` on an all-numeric dict
(`0` in the unreachable non-numeric case). -/
def getD : PyDict → String → ℚ → ℚ
  | [], _, d => d
  | (k, v) :: rest, key, d =>
    if k = key then (match v with | .num q => q | .str _ => 0) else getD rest key d

/-- Container for all risk factor scores (`RiskFactors` dataclass): the
six content-category fields hold whatever `ai_analysis` supplied; the
four computed fields are numbers. -/
structure RiskFactors where
  spam : PyVal
  toxic : PyVal
  scam : PyVal
  illegal : PyVal
  phishing : PyVal
  nsfw : PyVal
  flood : ℚ
  user_history : ℚ
  similarity : ℚ
  link_suspicious : ℚ
  deriving DecidableEq

/-- All-numeric view of `RiskFactors`, the domain of the pure risk
formula. -/
structure RiskFactorsQ where
  spam : ℚ
  toxic : ℚ
  scam : ℚ
  illegal : ℚ
  phishing : ℚ
  nsfw : ℚ
  flood : ℚ
  user_history : ℚ
  similarity : ℚ
  link_suspicious : ℚ
  deriving DecidableEq

/-- Complete risk assessment result (`RiskAssessment` dataclass).
`processing_time_ms` is a wall-clock duration with no algorithmic
content; it is modelled as `0`. -/
structure RiskAssessment where
  final_score : ℝ
  normalized_score : ℝ
  risk_level : String
  factors : RiskFactors
  decision : String
  action : String
  confidence : ℚ
  processing_time_ms : ℚ

/-- `RiskScoringEngine._calculate_flood_factor`.  Only `context` is
consulted (`user_id`/`group_id` are unused in the source body). -/
def calculate_flood_factor (context : PyDict) : Except PyErr ℚ :=
  let recent_messages := pyGet context ("recent_user_messages") (.num 0)
  let time_window := pyGet context ("time_window_seconds") (.num 60)
  if py_eq_zero recent_messages || py_eq_zero time_window then .ok 0
  else do
    let r ← pnum recent_messages
    let t ← pnum time_window
    let rate := r / t * 60
    if rate ≤ 5 then pure 0
    else if 20 ≤ rate then pure 1
    else pure ((rate - 5) / 15)

/-- `RiskScoringEngine._calculate_user_history_factor`.  The
`total_violations` entry is read by the source but never used in
arithmetic, so it cannot raise and is not consulted here. -/
def calculate_user_history_factor (user_history : PyDict) : Except PyErr ℚ := do
  let v24 ← pnum (pyGet user_history ("violations_24h") (.num 0))
  let v7 ← pnum (pyGet user_history ("violations_7d") (.num 0))
  let trust_score ← pnum (pyGet user_history ("trust_score") (.num 50))
  let recent_factor := min (v24 * (3/10) + v7 * (1/10)) 1
  let trust_factor := max 0 ((50 - trust_score) / 50)
  pure (min (recent_factor * (6/10) + trust_factor * (4/10)) 1)

/-- `RiskScoringEngine._calculate_similarity_factor`: a placeholder in
the source that returns `0.0` on both branches. -/
def calculate_similarity_factor (message_text : String) : ℚ :=
  if message_text = ("") ∨ message_text.length < 10 then 0 else 0

/-- `RiskScoringEngine._calculate_link_factor`. -/
def calculate_link_factor (message_text : String) (ai_analysis : PyDict) :
    Except PyErr ℚ :=
  if message_text = ("") then .ok 0
  else do
    let link_score ← pnum (pyGet ai_analysis ("suspicious_links") (.num 0))
    let phishing_score ← pnum (pyGet ai_analysis ("phishing") (.num 0))
    pure (max link_score (phishing_score * (8/10)))

/-- The ten (weight, score) pairs of `_apply_risk_formula`, in source
order, with the default `RISK_WEIGHTS`. -/
def factor_pairs (f : RiskFactorsQ) : List (ℚ × ℚ) :=
  [(settings.RISK_WEIGHT_SPAM, f.spam),
   (settings.RISK_WEIGHT_TOXIC, f.toxic),
   (settings.RISK_WEIGHT_SCAM, f.scam),
   (settings.RISK_WEIGHT_ILLEGAL, f.illegal),
   (settings.RISK_WEIGHT_PHISHING, f.phishing),
   (settings.RISK_WEIGHT_NSFW, f.nsfw),
   (settings.RISK_WEIGHT_FLOOD, f.flood),
   (settings.RISK_WEIGHT_USER_HISTORY, f.user_history),
   (settings.RISK_WEIGHT_SIMILARITY, f.similarity),
   (settings.RISK_WEIGHT_LINK_SUSPICIOUS, f.link_suspicious)]

/-- The noisy-OR body of `_apply_risk_formula` on numeric factors:
`risk = 1 − Π(1 − Wᵢ·Sᵢ)`, clamped to `[0,1]`. -/
def apply_risk_formula_q (f : RiskFactorsQ) : ℚ :=
  let product := (factor_pairs f).foldl (fun p ws => p * (1 - ws.1 * ws.2)) 1
  min (max (1 - product) 0) 1

/-- Numeric view of a `RiskFactors` record: raises `TypeError` if any
content-category score supplied by `ai_analysis` is not a number (as
the multiplications of `_apply_risk_formula` do in Python). -/
def risk_factors_to_q (f : RiskFactors) : Except PyErr RiskFactorsQ := do
  let s ← pnum f.spam
  let t ← pnum f.toxic
  let sc ← pnum f.scam
  let il ← pnum f.illegal
  let ph ← pnum f.phishing
  let ns ← pnum f.nsfw
  pure { spam := s, toxic := t, scam := sc, illegal := il, phishing := ph, nsfw := ns,
         flood := f.flood, user_history := f.user_history, similarity := f.similarity,
         link_suspicious := f.link_suspicious }

/-- `RiskScoringEngine._apply_risk_formula`. -/
def apply_risk_formula (f : RiskFactors) : Except PyErr ℚ := do
  let fq ← risk_factors_to_q f
  pure (apply_risk_formula_q fq)

/-- The escalation multiplier of `_apply_dynamic_escalation`: starts at
`1.0`, `×1.15` when `violations_24h > 3`, `×1.25` when
`trust_score < 20`. -/
def escalation_multiplier_q (v24 trust_score : ℚ) : ℚ :=
  let m1 : ℚ := if 3 < v24 then 1 * (115/100) else 1
  let m2 : ℚ := if trust_score < 20 then m1 * (125/100) else m1
  m2

/-- Numeric body of `_apply_dynamic_escalation`: scale and clamp to
`1.0`. -/
def apply_dynamic_escalation_q (raw_score v24 trust_score : ℚ) : ℚ :=
  min (raw_score * escalation_multiplier_q v24 trust_score) 1

/-- `RiskScoringEngine._apply_dynamic_escalation`.  The `factors`
argument of the source is unused in its body and omitted. -/
def apply_dynamic_escalation (raw_score : ℚ) (user_history : PyDict) :
    Except PyErr ℚ := do
  let v24 ← pnum (pyGet user_history ("violations_24h") (.num 0))
  let trust_score ← pnum (pyGet user_history ("trust_score") (.num 50))
  pure (apply_dynamic_escalation_q raw_score v24 trust_score)

/-- `RiskScoringEngine._sigmoid_smooth` with the default steepness
`k = 10.0` (the only call site uses the default). -/
noncomputable def sigmoid_smooth (score : ℚ) : ℝ :=
  1 / (1 + Real.exp (-(10:ℝ) * ((score : ℝ) - 1/2)))

/-- `RiskScoringEngine._determine_action`: classify the 0–100 score
against the configured thresholds; a score equal to a threshold takes
the `≥` branch.  The `factors` argument is unused in the source body. -/
noncomputable def determine_action (final_score : ℝ) (factors : RiskFactors) :
    String × String × String :=
  if (settings.RISK_THRESHOLD_CRITICAL : ℝ) ≤ final_score then
    (("critical"), ("block"), ("delete_mute_notify"))
  else if (settings.RISK_THRESHOLD_HIGH : ℝ) ≤ final_score then
    (("high"), ("block"), ("delete_warn"))
  else if (settings.RISK_THRESHOLD_MEDIUM : ℝ) ≤ final_score then
    (("medium"), ("warn"), ("soft_warn_monitor"))
  else
    (("low"), ("allow"), ("allow"))

/-- Population variance of the six content-category factors, as
computed inline by `_calculate_confidence`. -/
def variance6 (a b c d e f : ℚ) : ℚ :=
  let mean := (a + b + c + d + e + f) / 6
  ((a - mean)^2 + (b - mean)^2 + (c - mean)^2 + (d - mean)^2 + (e - mean)^2
    + (f - mean)^2) / 6

/-- `RiskScoringEngine._calculate_confidence`. -/
def calculate_confidence (factors : RiskFactors) (ai_analysis : PyDict) :
    Except PyErr ℚ := do
  let ai_confidence ← pnum (pyGet ai_analysis ("confidence") (.num (8/10)))
  let s ← pnum factors.spam
  let t ← pnum factors.toxic
  let sc ← pnum factors.scam
  let il ← pnum factors.illegal
  let ph ← pnum factors.phishing
  let ns ← pnum factors.nsfw
  let variance := variance6 s t sc il ph ns
  let variance_penalty := min (variance * 2) (2/10)
  pure (round2 (max (1/2) (ai_confidence - variance_penalty)))

/-- Factor extraction of `calculate_risk` (lines building the
`RiskFactors` record): content categories from `ai_analysis`, then the
flood, user-history, similarity and link factors. -/
def risk_factors_of (message_text : String) (ai_analysis user_history context : PyDict) :
    Except PyErr RiskFactors := do
  let f0 : RiskFactors :=
    { spam := pyGet ai_analysis ("spam") (.num 0)
      toxic := pyGet ai_analysis ("toxicity") (.num 0)
      scam := pyGet ai_analysis ("scam") (.num 0)
      illegal := pyGet ai_analysis ("illegal") (.num 0)
      phishing := pyGet ai_analysis ("phishing") (.num 0)
      nsfw := pyGet ai_analysis ("nsfw") (.num 0)
      flood := 0, user_history := 0, similarity := 0, link_suspicious := 0 }
  let flood ← calculate_flood_factor context
  let uh ← calculate_user_history_factor user_history
  let sim := calculate_similarity_factor message_text
  let link ← calculate_link_factor message_text ai_analysis
  pure { f0 with flood := flood, user_history := uh, similarity := sim,
                 link_suspicious := link }

/-- The raw pre-escalation score of `calculate_risk`: factor extraction
followed by `_apply_risk_formula`. -/
def raw_score_of (message_text : String) (ai_analysis user_history context : PyDict) :
    Except PyErr ℚ := do
  let factors ← risk_factors_of message_text ai_analysis user_history context
  apply_risk_formula factors

/-- `RiskScoringEngine.calculate_risk`: the full pipeline.  `user_id`
and `group_id` are threaded through in the source but consulted by none
of the factor computations. -/
noncomputable def calculate_risk (message_text : String) (user_id group_id : ℤ)
    (ai_analysis user_history context : PyDict) : Except PyErr RiskAssessment := do
  let factors ← risk_factors_of message_text ai_analysis user_history context
  let raw_score ← apply_risk_formula factors
  let escalated_score ← apply_dynamic_escalation raw_score user_history
  let normalized_score := sigmoid_smooth escalated_score
  let final_score := normalized_score * 100
  let rda := determine_action final_score factors
  let confidence ← calculate_confidence factors ai_analysis
  pure { final_score := final_score, normalized_score := normalized_score,
         risk_level := rda.1, factors := factors, decision := rda.2.1, action := rda.2.2,
         confidence := confidence, processing_time_ms := 0 }

/-! ### The success path of `calculate_risk` on all-numeric inputs

Pure counterparts of the fallible helpers, used to state what
`calculate_risk` returns when every supplied dict value is numeric. -/

/-- Value of the flood factor on an all-numeric `context`. -/
def flood_q (context : PyDict) : ℚ :=
  let r := getD context ("recent_user_messages") 0
  let t := getD context ("time_window_seconds") 60
  if r = 0 ∨ t = 0 then 0
  else
    let rate := r / t * 60
    if rate ≤ 5 then 0 else if 20 ≤ rate then 1 else (rate - 5) / 15

/-- Value of the user-history factor on an all-numeric
`user_history`. -/
def user_history_q (user_history : PyDict) : ℚ :=
  let v24 := getD user_history ("violations_24h") 0
  let v7 := getD user_history ("violations_7d") 0
  let ts := getD user_history ("trust_score") 50
  min ((min (v24 * (3/10) + v7 * (1/10)) 1) * (6/10) + (max 0 ((50 - ts) / 50)) * (4/10)) 1

/-- Value of the link factor on an all-numeric `ai_analysis`. -/
def link_q (message_text : String) (ai_analysis : PyDict) : ℚ :=
  if message_text = ("") then 0
  else max (getD ai_analysis ("suspicious_links") 0)
    ((getD ai_analysis ("phishing") 0) * (8/10))

/-- The `RiskFactors` record `calculate_risk` builds on all-numeric
inputs. -/
def factors_of_q (message_text : String) (ai_analysis user_history context : PyDict) :
    RiskFactors :=
  { spam := pyGet ai_analysis ("spam") (.num 0)
    toxic := pyGet ai_analysis ("toxicity") (.num 0)
    scam := pyGet ai_analysis ("scam") (.num 0)
    illegal := pyGet ai_analysis ("illegal") (.num 0)
    phishing := pyGet ai_analysis ("phishing") (.num 0)
    nsfw := pyGet ai_analysis ("nsfw") (.num 0)
    flood := flood_q context
    user_history := user_history_q user_history
    similarity := calculate_similarity_factor message_text
    link_suspicious := link_q message_text ai_analysis }

/-- The all-numeric `RiskFactorsQ` view of the same record. -/
def factors_q_view (message_text : String) (ai_analysis user_history context : PyDict) :
    RiskFactorsQ :=
  { spam := getD ai_analysis ("spam") 0
    toxic := getD ai_analysis ("toxicity") 0
    scam := getD ai_analysis ("scam") 0
    illegal := getD ai_analysis ("illegal") 0
    phishing := getD ai_analysis ("phishing") 0
    nsfw := getD ai_analysis ("nsfw") 0
    flood := flood_q context
    user_history := user_history_q user_history
    similarity := calculate_similarity_factor message_text
    link_suspicious := link_q message_text ai_analysis }

/-- The confidence value on all-numeric inputs: classifier confidence
(default 0.8) minus the capped variance penalty, floored at 0.5 and
rounded to two decimals. -/
def confidence_q (ai_analysis : PyDict) : ℚ :=
  round2 (max (1/2) (getD ai_analysis ("confidence") (8/10) -
    min (variance6 (getD ai_analysis ("spam") 0) (getD ai_analysis ("toxicity") 0)
      (getD ai_analysis ("scam") 0) (getD ai_analysis ("illegal") 0)
      (getD ai_analysis ("phishing") 0) (getD ai_analysis ("nsfw") 0) * 2) (2/10)))

/-- The assessment `calculate_risk` returns on all-numeric inputs. -/
noncomputable def risk_assessment_q (message_text : String)
    (ai_analysis user_history context : PyDict) : RiskAssessment :=
  let factors := factors_of_q message_text ai_analysis user_history context
  let raw := apply_risk_formula_q (factors_q_view message_text ai_analysis user_history context)
  let esc := apply_dynamic_escalation_q raw (getD user_history ("violations_24h") 0)
    (getD user_history ("trust_score") 50)
  let normalized := sigmoid_smooth esc
  let final := normalized * 100
  let rda := determine_action final factors
  { final_score := final, normalized_score := normalized, risk_level := rda.1,
    factors := factors, decision := rda.2.1, action := rda.2.2,
    confidence := confidence_q ai_analysis, processing_time_ms := 0 }

theorem pyGet_all_num {m : PyDict} (h : all_num m = true) (k : String) (d : ℚ) :
    pyGet m k (.num d) = .num (getD m k d) := by
  induction m with
  | nil => rfl
  | cons kv rest ih =>
    rw [all_num, List.all_cons, Bool.and_eq_true] at h
    obtain ⟨h1, h2⟩ := h
    obtain ⟨k', v⟩ := kv
    by_cases hk : k' = k
    · cases v with
      | num q => simp [pyGet, getD, hk]
      | str s => simp [is_num] at h1
    · simpa [pyGet, getD, hk] using ih h2

theorem pnum_all_num {m : PyDict} (h : all_num m = true) (k : String) (d : ℚ) :
    pnum (pyGet m k (.num d)) = .ok (getD m k d) := by
  rw [pyGet_all_num h k d]; rfl

theorem py_eq_zero_all_num {m : PyDict} (h : all_num m = true) (k : String) (d : ℚ) :
    py_eq_zero (pyGet m k (.num d)) = decide (getD m k d = 0) := by
  rw [pyGet_all_num h k d]; rfl

theorem calculate_flood_factor_all_num {context : PyDict}
    (h : all_num context = true) :
    calculate_flood_factor context = .ok (flood_q context) := by
  unfold calculate_flood_factor flood_q
  dsimp only
  rw [py_eq_zero_all_num h, py_eq_zero_all_num h,
      pnum_all_num h ("recent_user_messages") 0,
      pnum_all_num h ("time_window_seconds") 60]
  rcases eq_or_ne (getD context ("recent_user_messages") 0) 0 with h1 | h1
  · simp [h1]
  · rcases eq_or_ne (getD context ("time_window_seconds") 60) 0 with h2 | h2
    · simp [h1, h2]
    · simp only [h1, h2, Bind.bind, Except.bind, pure, Except.pure, decide_eq_true_eq,
        if_false, Bool.or_self, or_self, decide_eq_false h1, decide_eq_false h2,
        Bool.or_false, Bool.false_or]
      split_ifs <;> rfl

theorem calculate_user_history_factor_all_num {user_history : PyDict}
    (h : all_num user_history = true) :
    calculate_user_history_factor user_history = .ok (user_history_q user_history) := by
  unfold calculate_user_history_factor user_history_q
  rw [pnum_all_num h ("violations_24h") 0, pnum_all_num h ("violations_7d") 0,
      pnum_all_num h ("trust_score") 50]
  rfl

theorem calculate_link_factor_all_num {ai_analysis : PyDict}
    (h : all_num ai_analysis = true) (message_text : String) :
    calculate_link_factor message_text ai_analysis =
      .ok (link_q message_text ai_analysis) := by
  unfold calculate_link_factor link_q
  by_cases hm : message_text = ("")
  · simp [hm]
  · simp only [hm, if_false]
    rw [pnum_all_num h ("suspicious_links") 0, pnum_all_num h ("phishing") 0]
    rfl

theorem ok_bind {α β : Type} (a : α) (f : α → Except PyErr β) :
    (Except.ok a >>= f) = f a := rfl

theorem risk_factors_of_all_num {ai_analysis user_history context : PyDict}
    (ha : all_num ai_analysis = true) (hh : all_num user_history = true)
    (hc : all_num context = true) (message_text : String) :
    risk_factors_of message_text ai_analysis user_history context =
      .ok (factors_of_q message_text ai_analysis user_history context) := by
  unfold risk_factors_of factors_of_q
  dsimp only
  rw [calculate_flood_factor_all_num hc, calculate_user_history_factor_all_num hh,
      calculate_link_factor_all_num ha message_text]
  rfl

theorem risk_factors_to_q_all_num {ai_analysis user_history context : PyDict}
    (ha : all_num ai_analysis = true) (message_text : String) :
    risk_factors_to_q (factors_of_q message_text ai_analysis user_history context) =
      .ok (factors_q_view message_text ai_analysis user_history context) := by
  unfold risk_factors_to_q factors_of_q factors_q_view
  dsimp only
  rw [pnum_all_num ha ("spam") 0, pnum_all_num ha ("toxicity") 0,
      pnum_all_num ha ("scam") 0, pnum_all_num ha ("illegal") 0,
      pnum_all_num ha ("phishing") 0, pnum_all_num ha ("nsfw") 0]
  rfl

theorem apply_dynamic_escalation_all_num {user_history : PyDict}
    (h : all_num user_history = true) (raw_score : ℚ) :
    apply_dynamic_escalation raw_score user_history =
      .ok (apply_dynamic_escalation_q raw_score (getD user_history ("violations_24h") 0)
        (getD user_history ("trust_score") 50)) := by
  unfold apply_dynamic_escalation
  rw [pnum_all_num h ("violations_24h") 0, pnum_all_num h ("trust_score") 50]
  rfl

theorem calculate_confidence_all_num {ai_analysis user_history context : PyDict}
    (ha : all_num ai_analysis = true) (message_text : String) :
    calculate_confidence (factors_of_q message_text ai_analysis user_history context)
      ai_analysis = .ok (confidence_q ai_analysis) := by
  unfold calculate_confidence factors_of_q confidence_q
  dsimp only
  rw [pnum_all_num ha ("confidence") (8/10), pnum_all_num ha ("spam") 0,
      pnum_all_num ha ("toxicity") 0, pnum_all_num ha ("scam") 0,
      pnum_all_num ha ("illegal") 0, pnum_all_num ha ("phishing") 0,
      pnum_all_num ha ("nsfw") 0]
  rfl

theorem calculate_risk_all_num {ai_analysis user_history context : PyDict}
    (ha : all_num ai_analysis = true) (hh : all_num user_history = true)
    (hc : all_num context = true) (message_text : String) (user_id group_id : ℤ) :
    calculate_risk message_text user_id group_id ai_analysis user_history context =
      .ok (risk_assessment_q message_text ai_analysis user_history context) := by
  unfold calculate_risk apply_risk_formula
  rw [risk_factors_of_all_num ha hh hc message_text, ok_bind]
  dsimp only
  rw [risk_factors_to_q_all_num ha message_text, ok_bind]
  rw [show ∀ (q : ℚ), (pure q : Except PyErr ℚ) = Except.ok q from fun _ => rfl, ok_bind]
  rw [apply_dynamic_escalation_all_num hh, ok_bind]
  rw [calculate_confidence_all_num ha message_text, ok_bind]
  rfl

/-! ## Claim theorems -/

/-- C3: for every current trust score and every action type and
severity, the `new_score` returned by `calculate_trust_update` lies in
`[TRUST_MIN, TRUST_MAX]`, regardless of the delta's magnitude. -/
theorem C3_trust_update_clamped (current_trust : ℚ) (action_type severity : String) :
    (settings.TRUST_MIN : ℚ) ≤
        (calculate_trust_update current_trust action_type severity).new_score ∧
      (calculate_trust_update current_trust action_type severity).new_score ≤
        (settings.TRUST_MAX : ℚ) := by
  have hmin : (settings.TRUST_MIN : ℚ) = 0 := by norm_num [settings]
  have hmax : (settings.TRUST_MAX : ℚ) = 100 := by norm_num [settings]
  unfold calculate_trust_update
  dsimp only
  rw [hmin, hmax]
  constructor
  · exact round2_nonneg (le_max_left _ _)
  · have h : max (0:ℚ) (min 100 (current_trust +
        (if action_type = ("positive_interaction") then settings.TRUST_BONUS_POSITIVE
         else if action_type = ("violation") then
           -(settings.TRUST_PENALTY_VIOLATION : ℚ) * violation_multiplier severity
         else if action_type = ("mute") then -(settings.TRUST_PENALTY_MUTE : ℚ)
         else if action_type = ("ban_attempt") then -(settings.TRUST_PENALTY_BAN : ℚ)
         else 0))) ≤ ((100:ℤ) : ℚ) := by
      push_cast
      exact max_le (by norm_num) (min_le_left _ _)
    have := round2_le_int h
    simpa using this

/-- C8: `calculate_trust_decay` leaves the score unchanged for fewer
than 7 inactive days, and otherwise returns
`max(TRUST_MIN, current − 2·((days − 7) // 7))`: two points per
additional full week after the first, floored at `TRUST_MIN`. -/
theorem C8_trust_decay_formula (current_score : ℚ) (days_inactive : ℤ) :
    (days_inactive < 7 →
      calculate_trust_decay current_score days_inactive = current_score) ∧
    (7 ≤ days_inactive →
      calculate_trust_decay current_score days_inactive =
        max (settings.TRUST_MIN : ℚ)
          (current_score - 2 * (((days_inactive - 7).fdiv 7 : ℤ) : ℚ))) := by
  constructor
  · intro h
    unfold calculate_trust_decay
    rw [if_pos h]
  · intro h
    unfold calculate_trust_decay
    rw [if_neg (not_lt.mpr h)]
    dsimp only
    congr 1
    push_cast
    ring

/-- Witness for C8 at concrete inputs: 3 inactive days leave 50
unchanged; 21 inactive days take 95 to 91. -/
theorem C8_trust_decay_formula_witness :
    calculate_trust_decay 50 3 = 50 ∧ calculate_trust_decay 95 21 = 91 := by
  constructor
  · exact (C8_trust_decay_formula 50 3).1 (by norm_num)
  · have h := (C8_trust_decay_formula 95 21).2 (by norm_num)
    rw [h, (by decide : ((21 - 7 : ℤ).fdiv 7) = 2)]
    norm_num [settings]

/-- C9: an action type outside the four documented values yields
`change = 0`, an empty reason and a `new_score` that is just the
clamped (and two-decimal-rounded) old score — exactly the clamped old
score whenever the stored score has at most two decimals; and a
`violation` with an unrecognized severity falls back to multiplier 1,
the low-severity delta of `−5`. -/
theorem C9_trust_update_unknown_action (current_trust : ℚ) (action_type severity : String) :
    (action_type ≠ ("positive_interaction") ∧ action_type ≠ ("violation") ∧
     action_type ≠ ("mute") ∧ action_type ≠ ("ban_attempt") →
      (calculate_trust_update current_trust action_type severity).change = 0 ∧
      (calculate_trust_update current_trust action_type severity).reason = ("") ∧
      (calculate_trust_update current_trust action_type severity).new_score =
        round2 (max (settings.TRUST_MIN : ℚ)
          (min (settings.TRUST_MAX : ℚ) current_trust)) ∧
      ((∃ n : ℤ, current_trust = (n : ℚ) / 100) →
        (calculate_trust_update current_trust action_type severity).new_score =
          max (settings.TRUST_MIN : ℚ) (min (settings.TRUST_MAX : ℚ) current_trust))) ∧
    (severity ≠ ("low") ∧ severity ≠ ("medium") ∧ severity ≠ ("high") ∧
     severity ≠ ("critical") →
      (calculate_trust_update current_trust ("violation") severity).change = -5 ∧
      (calculate_trust_update current_trust ("violation") severity).reason =
        ("Violation (") ++ severity ++ (")")) := by
  constructor
  · rintro ⟨h1, h2, h3, h4⟩
    have hval : calculate_trust_update current_trust action_type severity =
        { new_score := round2 (max (settings.TRUST_MIN : ℚ)
            (min (settings.TRUST_MAX : ℚ) current_trust)),
          old_score := round2 current_trust,
          change := round2 0,
          reason := (""),
          restrictions_applied := determine_restrictions (max (settings.TRUST_MIN : ℚ)
            (min (settings.TRUST_MAX : ℚ) current_trust)) } := by
      unfold calculate_trust_update
      simp only [if_neg h1, if_neg h2, if_neg h3, if_neg h4, add_zero]
    rw [hval]
    refine ⟨by norm_num [round2, rhe], rfl, rfl, ?_⟩
    rintro ⟨n, rfl⟩
    have hmin : (settings.TRUST_MIN : ℚ) = 0 := by norm_num [settings]
    have hmax : (settings.TRUST_MAX : ℚ) = 100 := by norm_num [settings]
    dsimp only
    rw [hmin, hmax]
    apply round2_eq_self
    refine ⟨max 0 (min 10000 n), ?_⟩
    rw [max_mul_of_nonneg _ _ (by norm_num : (0:ℚ) ≤ 100),
        min_mul_of_nonneg _ _ (by norm_num : (0:ℚ) ≤ 100)]
    push_cast
    congr 1
    · norm_num
    · congr 1
      · norm_num
      · field_simp
  · rintro ⟨h1, h2, h3, h4⟩
    have hm : violation_multiplier severity = 1 := by
      unfold violation_multiplier
      simp only [if_neg h1, if_neg h2, if_neg h3, if_neg h4]
    have hval : calculate_trust_update current_trust ("violation") severity =
        { new_score := round2 (max (settings.TRUST_MIN : ℚ)
            (min (settings.TRUST_MAX : ℚ)
              (current_trust + -(settings.TRUST_PENALTY_VIOLATION : ℚ) * 1))),
          old_score := round2 current_trust,
          change := round2 (-(settings.TRUST_PENALTY_VIOLATION : ℚ) * 1),
          reason := ("Violation (") ++ severity ++ (")"),
          restrictions_applied := determine_restrictions (max (settings.TRUST_MIN : ℚ)
            (min (settings.TRUST_MAX : ℚ)
              (current_trust + -(settings.TRUST_PENALTY_VIOLATION : ℚ) * 1))) } := by
      unfold calculate_trust_update
      rw [hm]
      simp only [eq_false (show ¬((("violation") : String) = ("positive_interaction")) by decide),
        eq_true (show ((("violation") : String) = ("violation")) from rfl), if_true, if_false]
    rw [hval]
    refine ⟨?_, rfl⟩
    norm_num [settings, round2, rhe]

/-- Witness for C9: the unknown action `"adminlog"` changes nothing and
the unknown severity `"weird"` costs the low-severity 5 points. -/
theorem C9_trust_update_unknown_action_witness :
    (calculate_trust_update 50 ("adminlog") ("weird")).change = 0 ∧
    (calculate_trust_update 50 ("adminlog") ("weird")).reason = ("") ∧
    (calculate_trust_update 50 ("adminlog") ("weird")).new_score = 50 ∧
    (calculate_trust_update 50 ("violation") ("weird")).change = -5 := by
  have h := C9_trust_update_unknown_action 50 ("adminlog") ("weird")
  obtain ⟨hc, hr, -, hcent⟩ := h.1 (by decide)
  refine ⟨hc, hr, ?_, (h.2 (by decide)).1⟩
  have := hcent ⟨5000, by norm_num⟩
  rw [this]
  norm_num [settings]

theorem calculate_similarity_factor_eq_zero (message_text : String) :
    calculate_similarity_factor message_text = 0 := by
  unfold calculate_similarity_factor
  split_ifs <;> rfl

/-- The C5 scenario's `ai_analysis`: only `illegal` present, at 1.0. -/
def c5_ai : PyDict := [(("illegal"), PyVal.num 1)]

/-- The C5 scenario's `user_history`: zero violations, trust 50. -/
def c5_hist : PyDict :=
  [(("violations_24h"), PyVal.num 0), (("violations_7d"), PyVal.num 0),
   (("total_violations"), PyVal.num 0), (("trust_score"), PyVal.num 50)]

/-- The C5 scenario's `context`: no recent messages. -/
def c5_ctx : PyDict :=
  [(("recent_user_messages"), PyVal.num 0), (("time_window_seconds"), PyVal.num 60)]

/-- C5: with `ai_analysis = {illegal: 1.0}`, a message with no
suspicious links, zero violation history at trust 50 and no recent
messages, the weighted noisy-OR combination yields a raw pre-escalation
score of exactly `0.18`, the configured illegal weight. -/
theorem C5_illegal_noisy_or_raw :
    raw_score_of ("hello world!") c5_ai c5_hist c5_ctx =
      Except.ok settings.RISK_WEIGHT_ILLEGAL ∧
    settings.RISK_WEIGHT_ILLEGAL = 18/100 := by
  constructor
  · unfold raw_score_of apply_risk_formula
    rw [risk_factors_of_all_num (by decide) (by decide) (by decide) ("hello world!"), ok_bind,
        risk_factors_to_q_all_num (by decide) ("hello world!"), ok_bind]
    have h2 : user_history_q c5_hist = 0 := by
      unfold user_history_q
      dsimp only
      rw [show getD c5_hist ("violations_24h") 0 = 0 from rfl,
          show getD c5_hist ("violations_7d") 0 = 0 from rfl,
          show getD c5_hist ("trust_score") 50 = 50 from rfl]
      norm_num
    have h3 : link_q ("hello world!") c5_ai = 0 := by
      unfold link_q
      rw [if_neg (show ¬("hello world!") = ("") by decide),
          show getD c5_ai ("suspicious_links") 0 = 0 from rfl,
          show getD c5_ai ("phishing") 0 = 0 from rfl]
      norm_num
    have hv : factors_q_view ("hello world!") c5_ai c5_hist c5_ctx =
        { spam := 0, toxic := 0, scam := 0, illegal := 1, phishing := 0, nsfw := 0,
          flood := 0, user_history := 0, similarity := 0, link_suspicious := 0 } := by
      unfold factors_q_view
      rw [h2, h3, calculate_similarity_factor_eq_zero,
          show flood_q c5_ctx = 0 from rfl,
          show getD c5_ai ("spam") 0 = 0 from rfl,
          show getD c5_ai ("toxicity") 0 = 0 from rfl,
          show getD c5_ai ("scam") 0 = 0 from rfl,
          show getD c5_ai ("illegal") 0 = 1 from rfl,
          show getD c5_ai ("phishing") 0 = 0 from rfl,
          show getD c5_ai ("nsfw") 0 = 0 from rfl]
    rw [hv]
    show Except.ok _ = _
    congr 1
    norm_num [apply_risk_formula_q, factor_pairs, settings, List.foldl]
  · norm_num [settings]

/-- An all-zero `RiskFactors` record (the `factors` argument of
`_determine_action` is unused by its body). -/
def zero_factors : RiskFactors :=
  { spam := .num 0, toxic := .num 0, scam := .num 0, illegal := .num 0,
    phishing := .num 0, nsfw := .num 0, flood := 0, user_history := 0,
    similarity := 0, link_suspicious := 0 }

/-- C6: a final score exactly equal to a configured threshold
classifies as the higher tier: 85 is `critical` (block /
delete_mute_notify), 70 is `high` (block / delete_warn) and 50 is
`medium` (warn / soft_warn_monitor). -/
theorem C6_threshold_boundaries :
    determine_action 85 zero_factors = (("critical"), ("block"), ("delete_mute_notify")) ∧
    determine_action 70 zero_factors = (("high"), ("block"), ("delete_warn")) ∧
    determine_action 50 zero_factors = (("medium"), ("warn"), ("soft_warn_monitor")) := by
  refine ⟨?_, ?_, ?_⟩ <;>
  · unfold determine_action
    norm_num [settings]

/-- C2 counterexample: `calculate_risk` is claimed never to raise, with
malformed (non-numeric) fields defaulted to `0.0`; but a present
non-numeric `"spam"` value reaches the risk formula's multiplication
and raises `TypeError`. -/
theorem C2_counterexample :
    calculate_risk ("") 7 7 [(("spam"), PyVal.str ("high"))] [] [] =
      Except.error PyErr.typeError := rfl

/-- C2 amended: `calculate_risk` never raises when every supplied field
of `ai_analysis`, `user_history` and `context` is numeric — missing
fields are defaulted — and then returns a well-formed
`RiskAssessment`. -/
theorem C2_no_raise_on_numeric (message_text : String) (user_id group_id : ℤ)
    (ai_analysis user_history context : PyDict)
    (ha : all_num ai_analysis = true) (hh : all_num user_history = true)
    (hc : all_num context = true) :
    ∃ r : RiskAssessment,
      calculate_risk message_text user_id group_id ai_analysis user_history context =
        Except.ok r :=
  ⟨risk_assessment_q message_text ai_analysis user_history context,
    calculate_risk_all_num ha hh hc message_text user_id group_id⟩

/-- Witness for the amended C2 at concrete numeric-only input. -/
theorem C2_no_raise_on_numeric_witness :
    ∃ r : RiskAssessment, calculate_risk ("") 1 1 [] [] [] = Except.ok r :=
  C2_no_raise_on_numeric ("") 1 1 [] [] [] (by decide) (by decide) (by decide)

/-- C10: on every input on which `calculate_risk` returns, the
`confidence` field equals
`round(max(0.5, ai_confidence − min(2·variance, 0.2)), 2)` where
`ai_confidence` is the classifier-supplied confidence (default `0.8`)
and `variance` is over the six content-category factors; in particular
it is never below `0.5`. -/
theorem C10_confidence_formula (message_text : String) (user_id group_id : ℤ)
    (ai_analysis user_history context : PyDict)
    (ha : all_num ai_analysis = true) (hh : all_num user_history = true)
    (hc : all_num context = true) :
    ∃ r : RiskAssessment,
      calculate_risk message_text user_id group_id ai_analysis user_history context =
        Except.ok r ∧
      r.confidence = round2 (max (1/2) (getD ai_analysis ("confidence") (8/10) -
        min (variance6 (getD ai_analysis ("spam") 0) (getD ai_analysis ("toxicity") 0)
          (getD ai_analysis ("scam") 0) (getD ai_analysis ("illegal") 0)
          (getD ai_analysis ("phishing") 0) (getD ai_analysis ("nsfw") 0) * 2) (2/10))) ∧
      1/2 ≤ r.confidence := by
  refine ⟨risk_assessment_q message_text ai_analysis user_history context,
    calculate_risk_all_num ha hh hc message_text user_id group_id, rfl, ?_⟩
  show 1/2 ≤ confidence_q ai_analysis
  unfold confidence_q
  exact round2_ge_half (le_max_left _ _)

/-- Witness for C10: a classifier confidence of `0.3` (below `0.5`)
still yields a returned confidence of at least `0.5`. -/
theorem C10_confidence_formula_witness :
    ∃ r : RiskAssessment,
      calculate_risk ("") 2 2 [(("confidence"), PyVal.num (3/10))] [] [] =
        Except.ok r ∧ 1/2 ≤ r.confidence := by
  obtain ⟨r, h1, h2, h3⟩ := C10_confidence_formula ("") 2 2
    [(("confidence"), PyVal.num (3/10))] [] [] (by decide) (by decide) (by decide)
  exact ⟨r, h1, h3⟩

/-- Weighted pairs related for noisy-OR monotonicity: equal weights in
`[0,1]`, scores in `[0,1]` with the first at most the second. -/
def pair_between (a b : ℚ × ℚ) : Prop :=
  a.1 = b.1 ∧ 0 ≤ a.1 ∧ a.1 ≤ 1 ∧ 0 ≤ a.2 ∧ a.2 ≤ b.2 ∧ b.2 ≤ 1

theorem foldl_noisy_or_mono {l l' : List (ℚ × ℚ)}
    (h : List.Forall₂ pair_between l l') :
    ∀ {p p' : ℚ}, 0 ≤ p' → p' ≤ p →
      0 ≤ List.foldl (fun p ws => p * (1 - ws.1 * ws.2)) p' l' ∧
      List.foldl (fun p ws => p * (1 - ws.1 * ws.2)) p' l' ≤
        List.foldl (fun p ws => p * (1 - ws.1 * ws.2)) p l := by
  induction h with
  | nil => exact fun h0 h1 => ⟨h0, h1⟩
  | @cons a b l₁ l₂ hab htail ih =>
    intro p p' h0 h1
    obtain ⟨hw, hw0, hw1, hs0, hss, hs1⟩ := hab
    simp only [List.foldl_cons]
    apply ih
    · have hb1 : b.1 * b.2 ≤ 1 := by
        rw [← hw]
        nlinarith
      nlinarith
    · have hfac : 1 - b.1 * b.2 ≤ 1 - a.1 * a.2 := by
        rw [← hw]
        nlinarith
      have hfac0 : 0 ≤ 1 - b.1 * b.2 := by
        rw [← hw]
        nlinarith
      exact mul_le_mul h1 hfac hfac0 (le_trans h0 h1)

/-- Componentwise "between" relation on all ten risk factors: every
component of `f` is below the corresponding component of `g`, with both
in `[0,1]`. -/
def rf_between (f g : RiskFactorsQ) : Prop :=
  (0 ≤ f.spam ∧ f.spam ≤ g.spam ∧ g.spam ≤ 1) ∧
  (0 ≤ f.toxic ∧ f.toxic ≤ g.toxic ∧ g.toxic ≤ 1) ∧
  (0 ≤ f.scam ∧ f.scam ≤ g.scam ∧ g.scam ≤ 1) ∧
  (0 ≤ f.illegal ∧ f.illegal ≤ g.illegal ∧ g.illegal ≤ 1) ∧
  (0 ≤ f.phishing ∧ f.phishing ≤ g.phishing ∧ g.phishing ≤ 1) ∧
  (0 ≤ f.nsfw ∧ f.nsfw ≤ g.nsfw ∧ g.nsfw ≤ 1) ∧
  (0 ≤ f.flood ∧ f.flood ≤ g.flood ∧ g.flood ≤ 1) ∧
  (0 ≤ f.user_history ∧ f.user_history ≤ g.user_history ∧ g.user_history ≤ 1) ∧
  (0 ≤ f.similarity ∧ f.similarity ≤ g.similarity ∧ g.similarity ≤ 1) ∧
  (0 ≤ f.link_suspicious ∧ f.link_suspicious ≤ g.link_suspicious ∧ g.link_suspicious ≤ 1)

theorem apply_risk_formula_q_mono (f g : RiskFactorsQ) (h : rf_between f g) :
    apply_risk_formula_q f ≤ apply_risk_formula_q g := by
  obtain ⟨h1, h2, h3, h4, h5, h6, h7, h8, h9, h10⟩ := h
  have hrel : List.Forall₂ pair_between (factor_pairs f) (factor_pairs g) := by
    unfold factor_pairs
    refine List.Forall₂.cons ⟨rfl, by norm_num [settings], by norm_num [settings],
      h1.1, h1.2.1, h1.2.2⟩ ?_
    refine List.Forall₂.cons ⟨rfl, by norm_num [settings], by norm_num [settings],
      h2.1, h2.2.1, h2.2.2⟩ ?_
    refine List.Forall₂.cons ⟨rfl, by norm_num [settings], by norm_num [settings],
      h3.1, h3.2.1, h3.2.2⟩ ?_
    refine List.Forall₂.cons ⟨rfl, by norm_num [settings], by norm_num [settings],
      h4.1, h4.2.1, h4.2.2⟩ ?_
    refine List.Forall₂.cons ⟨rfl, by norm_num [settings], by norm_num [settings],
      h5.1, h5.2.1, h5.2.2⟩ ?_
    refine List.Forall₂.cons ⟨rfl, by norm_num [settings], by norm_num [settings],
      h6.1, h6.2.1, h6.2.2⟩ ?_
    refine List.Forall₂.cons ⟨rfl, by norm_num [settings], by norm_num [settings],
      h7.1, h7.2.1, h7.2.2⟩ ?_
    refine List.Forall₂.cons ⟨rfl, by norm_num [settings], by norm_num [settings],
      h8.1, h8.2.1, h8.2.2⟩ ?_
    refine List.Forall₂.cons ⟨rfl, by norm_num [settings], by norm_num [settings],
      h9.1, h9.2.1, h9.2.2⟩ ?_
    exact List.Forall₂.cons ⟨rfl, by norm_num [settings], by norm_num [settings],
      h10.1, h10.2.1, h10.2.2⟩ List.Forall₂.nil
  have hfold := foldl_noisy_or_mono hrel (le_refl (1:ℚ)) (le_refl (1:ℚ))
  unfold apply_risk_formula_q
  dsimp only
  refine min_le_min (max_le_max ?_ le_rfl) le_rfl
  linarith [hfold.2]

theorem escalation_multiplier_q_nonneg (v24 trust_score : ℚ) :
    0 ≤ escalation_multiplier_q v24 trust_score := by
  unfold escalation_multiplier_q
  dsimp only
  split_ifs <;> norm_num

theorem apply_dynamic_escalation_q_mono {r r' : ℚ} (h : r ≤ r') (v24 trust_score : ℚ) :
    apply_dynamic_escalation_q r v24 trust_score ≤
      apply_dynamic_escalation_q r' v24 trust_score := by
  unfold apply_dynamic_escalation_q
  exact min_le_min
    (mul_le_mul_of_nonneg_right h (escalation_multiplier_q_nonneg v24 trust_score)) le_rfl

theorem sigmoid_smooth_mono {s t : ℚ} (h : s ≤ t) :
    sigmoid_smooth s ≤ sigmoid_smooth t := by
  unfold sigmoid_smooth
  have hst : (s : ℝ) ≤ (t : ℝ) := by exact_mod_cast h
  have hexp : Real.exp (-(10:ℝ) * ((t:ℝ) - 1/2)) ≤ Real.exp (-(10:ℝ) * ((s:ℝ) - 1/2)) := by
    apply Real.exp_le_exp.mpr
    nlinarith
  have hpos : (0:ℝ) < 1 + Real.exp (-(10:ℝ) * ((t:ℝ) - 1/2)) := by positivity
  exact one_div_le_one_div_of_le hpos (by linarith)

/-- The `calculate_risk` pipeline from a numeric factor record to the
0–100 final score: noisy-OR formula, dynamic escalation (driven by the
`violations_24h` and `trust_score` history values), sigmoid smoothing
and scaling. -/
noncomputable def final_score_of (f : RiskFactorsQ) (v24 trust_score : ℚ) : ℝ :=
  sigmoid_smooth (apply_dynamic_escalation_q (apply_risk_formula_q f) v24 trust_score) * 100

/-- C4: raising any risk-factor components while keeping the rest (and
the user-history inputs) fixed never lowers the final score, for factor
scores in `[0,1]` under the configured weights. -/
theorem C4_noisy_or_monotonic (f g : RiskFactorsQ) (v24 trust_score : ℚ)
    (h : rf_between f g) :
    final_score_of f v24 trust_score ≤ final_score_of g v24 trust_score := by
  unfold final_score_of
  have h1 := apply_risk_formula_q_mono f g h
  have h2 := apply_dynamic_escalation_q_mono h1 v24 trust_score
  have h3 := sigmoid_smooth_mono h2
  exact mul_le_mul_of_nonneg_right h3 (by norm_num)

/-- Witness for C4: raising the spam factor from 0 to 1/2 (all other
components 0, clean history) does not lower the final score. -/
theorem C4_noisy_or_monotonic_witness :
    rf_between ⟨0, 0, 0, 0, 0, 0, 0, 0, 0, 0⟩ ⟨1/2, 0, 0, 0, 0, 0, 0, 0, 0, 0⟩ ∧
    final_score_of ⟨0, 0, 0, 0, 0, 0, 0, 0, 0, 0⟩ 0 50 ≤
      final_score_of ⟨1/2, 0, 0, 0, 0, 0, 0, 0, 0, 0⟩ 0 50 :=
  ⟨by norm_num [rf_between],
   C4_noisy_or_monotonic _ _ 0 50 (by norm_num [rf_between])⟩

/-- C7: with at least 3 tracked events and at least
`RAID_JOIN_THRESHOLD` (default 10) joins inside the trailing 30
seconds, `detect_raid` reports a `mass_join` raid with confidence
`min(count/20, 1)` and the recent joiners as affected users. -/
theorem C7_mass_join_detection (now : ℤ) (events : List JoinEvent)
    (h3 : 3 ≤ events.length)
    (h10 : settings.RAID_JOIN_THRESHOLD ≤
      (events.filter (fun e => now - 30 < e.joined_at)).length) :
    detect_raid now events =
      { is_raid := true, raid_type := ("mass_join"),
        confidence :=
          min (((events.filter (fun e => now - 30 < e.joined_at)).length : ℚ) / 20) 1,
        affected_users :=
          (events.filter (fun e => now - 30 < e.joined_at)).map (fun e => e.user_id),
        recommended_action := ("enable_slow_mode_restrict_new"),
        trigger_reason :=
          toString (events.filter (fun e => now - 30 < e.joined_at)).length ++
            (" joins in 30 seconds") } := by
  unfold detect_raid
  dsimp only
  rw [if_neg (by omega), if_pos h10]

/-- Twelve joins (users 101–112) at seconds 0–11 into one group. -/
def c7_events : List JoinEvent :=
  [⟨101, ("a"), none, 0⟩, ⟨102, ("b"), none, 1⟩, ⟨103, ("c"), none, 2⟩,
   ⟨104, ("d"), none, 3⟩, ⟨105, ("e"), none, 4⟩, ⟨106, ("f"), none, 5⟩,
   ⟨107, ("g"), none, 6⟩, ⟨108, ("h"), none, 7⟩, ⟨109, ("i"), none, 8⟩,
   ⟨110, ("j"), none, 9⟩, ⟨111, ("k"), none, 10⟩, ⟨112, ("l"), none, 11⟩]

/-- Witness for C7: 12 joins within the 30-second window give a
`mass_join` raid with confidence `12/20 = 0.6` over exactly those
twelve users. -/
theorem C7_mass_join_detection_witness :
    (detect_raid 11 c7_events).is_raid = true ∧
    (detect_raid 11 c7_events).raid_type = ("mass_join") ∧
    (detect_raid 11 c7_events).confidence = 3/5 ∧
    (detect_raid 11 c7_events).affected_users =
      [101, 102, 103, 104, 105, 106, 107, 108, 109, 110, 111, 112] := by
  have h := C7_mass_join_detection 11 c7_events (by decide) (by decide)
  rw [h]
  refine ⟨rfl, rfl, ?_, rfl⟩
  rw [show (c7_events.filter (fun e => (11:ℤ) - 30 < e.joined_at)).length = 12 from rfl]
  norm_num

/-- Canonical shape of the anti-raid state after activity in group 1
only: history `h` and status `r` for group 1, defaults elsewhere. -/
def gstate (h : List JoinEvent) (r : Option RaidStatus) : ARState :=
  { join_history := fun g => if g = 1 then h else []
    raid_status := fun g => if g = 1 then r else none }

/-- The window update of `record_join`: append the new event, keep the
last 5 minutes, cap at 500 events. -/
def trim (now : ℤ) (h : List JoinEvent) (e : JoinEvent) : List JoinEvent :=
  let h1 := (h ++ [e]).filter (fun x => now - 300 < x.joined_at)
  h1.drop (h1.length - 500)

theorem initial_ar_state_eq : initial_ar_state = gstate [] none := by
  unfold initial_ar_state gstate
  congr 1 <;> funext g <;> by_cases hg : g = 1 <;> simp [hg]

/-- One `record_join` step on a canonical group-1 state: the window is
trimmed, detection runs on the new window, and activation happens
exactly when the detection reports a raid **and** the group has no
status record at all. -/
theorem record_join_gstate (h : List JoinEvent) (r : Option RaidStatus)
    (now user_id : ℤ) (username : String) (acct : Option ℤ) :
    record_join (gstate h r) now 1 user_id username acct =
      (gstate (trim now h ⟨user_id, username, acct, now⟩)
        (if (detect_raid now (trim now h ⟨user_id, username, acct, now⟩)).is_raid ∧ r = none
         then some { active := true, started_at := now,
                     raid_type :=
                       (detect_raid now (trim now h ⟨user_id, username, acct, now⟩)).raid_type,
                     affected_users :=
                       (detect_raid now
                         (trim now h ⟨user_id, username, acct, now⟩)).affected_users,
                     measures := [], ended_at := none }
         else r),
       detect_raid now (trim now h ⟨user_id, username, acct, now⟩)) := by
  have h11 : ((1:ℤ) = 1) = True := by simp
  unfold record_join activate_raid_protection trim
  dsimp only
  simp only [h11, if_true]
  rw [show (gstate h r).join_history 1 = h by simp [gstate],
      show (gstate h r).raid_status 1 = r by simp [gstate]]
  simp only [Prod.mk.injEq, and_true]
  split_ifs with hc
  · unfold gstate
    congr 1 <;> funext g <;> by_cases hg : g = 1 <;> simp [gstate, hg]
  · unfold gstate
    congr 1 <;> funext g <;> by_cases hg : g = 1 <;> simp [gstate, hg]

/-- Deactivation on a canonical state flips `active` and stamps
`ended_at`, keeping the record in the dict. -/
theorem deactivate_gstate (h : List JoinEvent) (s : RaidStatus) (now : ℤ) :
    deactivate_raid_protection (gstate h (some s)) now 1 =
      gstate h (some { s with active := false, ended_at := some now }) := by
  unfold deactivate_raid_protection
  rw [show (gstate h (some s)).raid_status 1 = some s by simp [gstate]]
  dsimp only
  unfold gstate
  congr 1 <;> funext g <;> by_cases hg : g = 1 <;> simp [gstate, hg]

/-- `is_raid_active` on a canonical state reads the `active` flag. -/
theorem is_raid_active_gstate (h : List JoinEvent) (r : Option RaidStatus) :
    is_raid_active (gstate h r) 1 =
      (match r with | some s => s.active | none => false) := by
  unfold is_raid_active
  rw [show (gstate h r).raid_status 1 = r by simp [gstate]]

/-- A run of the anti-raid system for group 1: five fresh-account joins
(users 101–105, seconds 0–4) that trigger a `new_account_wave`
activation at the fifth join, a sixth join while the raid is active (a
no-op on the status record), an explicit `deactivate_raid_protection`
at second 50, and a second wave of five fresh-account joins (users
201–205, seconds 1000–1004) whose final join is again detected as a
raid. -/
def c1_run : ARState × RaidDetectionResult :=
  let s1 := (record_join initial_ar_state 0 1 101 ("a") (some 0)).1
  let s2 := (record_join s1 1 1 102 ("b") (some 1)).1
  let s3 := (record_join s2 2 1 103 ("c") (some 2)).1
  let s4 := (record_join s3 3 1 104 ("d") (some 3)).1
  let s5 := (record_join s4 4 1 105 ("e") (some 4)).1
  let s6 := (record_join s5 5 1 106 ("f") (some 5)).1
  let s7 := deactivate_raid_protection s6 50 1
  let s8 := (record_join s7 1000 1 201 ("a") (some 1000)).1
  let s9 := (record_join s8 1001 1 202 ("b") (some 1001)).1
  let s10 := (record_join s9 1002 1 203 ("c") (some 1002)).1
  let s11 := (record_join s10 1003 1 204 ("d") (some 1003)).1
  record_join s11 1004 1 205 ("e") (some 1004)

/-- Group 1's status entry of a canonical state. -/
theorem gstate_raid_status_one (h : List JoinEvent) (r : Option RaidStatus) :
    (gstate h r).raid_status 1 = r := by simp [gstate]

/-- C1: after a raid activation and an explicit deactivation, a later
`record_join` whose detection again returns `is_raid = true` does *not*
re-activate protection: the guard `group_id not in raid_status` sees
the stale (inactive) record left by `deactivate_raid_protection`, so
the status keeps `active = false`, the old `started_at = 4` and the
first wave's affected users, and `is_raid_active` stays false — the
claimed `monitoring → raid_active` re-transition never fires again. -/
theorem C1_reactivation_blocked_after_deactivation :
    c1_run.2.is_raid = true ∧
    c1_run.1.raid_status 1 =
      some { active := false, started_at := 4, raid_type := ("new_account_wave"),
             affected_users := [101, 102, 103, 104, 105], measures := [],
             ended_at := some 50 } ∧
    is_raid_active c1_run.1 1 = false := by
  have t1 : trim 0 [] ⟨101, ("a"), some 0, 0⟩ = [⟨101, ("a"), some 0, 0⟩] := rfl
  have t2 : trim 1 [⟨101, ("a"), some 0, 0⟩] ⟨102, ("b"), some 1, 1⟩ =
      [⟨101, ("a"), some 0, 0⟩, ⟨102, ("b"), some 1, 1⟩] := rfl
  have t3 : trim 2 [⟨101, ("a"), some 0, 0⟩, ⟨102, ("b"), some 1, 1⟩]
      ⟨103, ("c"), some 2, 2⟩ =
      [⟨101, ("a"), some 0, 0⟩, ⟨102, ("b"), some 1, 1⟩, ⟨103, ("c"), some 2, 2⟩] := rfl
  have t4 : trim 3 [⟨101, ("a"), some 0, 0⟩, ⟨102, ("b"), some 1, 1⟩,
      ⟨103, ("c"), some 2, 2⟩] ⟨104, ("d"), some 3, 3⟩ =
      [⟨101, ("a"), some 0, 0⟩, ⟨102, ("b"), some 1, 1⟩, ⟨103, ("c"), some 2, 2⟩,
       ⟨104, ("d"), some 3, 3⟩] := rfl
  have t5 : trim 4 [⟨101, ("a"), some 0, 0⟩, ⟨102, ("b"), some 1, 1⟩,
      ⟨103, ("c"), some 2, 2⟩, ⟨104, ("d"), some 3, 3⟩] ⟨105, ("e"), some 4, 4⟩ =
      [⟨101, ("a"), some 0, 0⟩, ⟨102, ("b"), some 1, 1⟩, ⟨103, ("c"), some 2, 2⟩,
       ⟨104, ("d"), some 3, 3⟩, ⟨105, ("e"), some 4, 4⟩] := rfl
  have t6 : trim 5 [⟨101, ("a"), some 0, 0⟩, ⟨102, ("b"), some 1, 1⟩,
      ⟨103, ("c"), some 2, 2⟩, ⟨104, ("d"), some 3, 3⟩, ⟨105, ("e"), some 4, 4⟩]
      ⟨106, ("f"), some 5, 5⟩ =
      [⟨101, ("a"), some 0, 0⟩, ⟨102, ("b"), some 1, 1⟩, ⟨103, ("c"), some 2, 2⟩,
       ⟨104, ("d"), some 3, 3⟩, ⟨105, ("e"), some 4, 4⟩, ⟨106, ("f"), some 5, 5⟩] := rfl
  have t8 : trim 1000 [⟨101, ("a"), some 0, 0⟩, ⟨102, ("b"), some 1, 1⟩,
      ⟨103, ("c"), some 2, 2⟩, ⟨104, ("d"), some 3, 3⟩, ⟨105, ("e"), some 4, 4⟩,
      ⟨106, ("f"), some 5, 5⟩] ⟨201, ("a"), some 1000, 1000⟩ =
      [⟨201, ("a"), some 1000, 1000⟩] := rfl
  have t9 : trim 1001 [⟨201, ("a"), some 1000, 1000⟩] ⟨202, ("b"), some 1001, 1001⟩ =
      [⟨201, ("a"), some 1000, 1000⟩, ⟨202, ("b"), some 1001, 1001⟩] := rfl
  have t10 : trim 1002 [⟨201, ("a"), some 1000, 1000⟩, ⟨202, ("b"), some 1001, 1001⟩]
      ⟨203, ("c"), some 1002, 1002⟩ =
      [⟨201, ("a"), some 1000, 1000⟩, ⟨202, ("b"), some 1001, 1001⟩,
       ⟨203, ("c"), some 1002, 1002⟩] := rfl
  have t11 : trim 1003 [⟨201, ("a"), some 1000, 1000⟩, ⟨202, ("b"), some 1001, 1001⟩,
      ⟨203, ("c"), some 1002, 1002⟩] ⟨204, ("d"), some 1003, 1003⟩ =
      [⟨201, ("a"), some 1000, 1000⟩, ⟨202, ("b"), some 1001, 1001⟩,
       ⟨203, ("c"), some 1002, 1002⟩, ⟨204, ("d"), some 1003, 1003⟩] := rfl
  have t12 : trim 1004 [⟨201, ("a"), some 1000, 1000⟩, ⟨202, ("b"), some 1001, 1001⟩,
      ⟨203, ("c"), some 1002, 1002⟩, ⟨204, ("d"), some 1003, 1003⟩]
      ⟨205, ("e"), some 1004, 1004⟩ =
      [⟨201, ("a"), some 1000, 1000⟩, ⟨202, ("b"), some 1001, 1001⟩,
       ⟨203, ("c"), some 1002, 1002⟩, ⟨204, ("d"), some 1003, 1003⟩,
       ⟨205, ("e"), some 1004, 1004⟩] := rfl
  have d1 : (detect_raid 0 [⟨101, ("a"), some 0, 0⟩]).is_raid = false := rfl
  have d2 : (detect_raid 1 [⟨101, ("a"), some 0, 0⟩, ⟨102, ("b"), some 1, 1⟩]).is_raid =
      false := rfl
  have d3 : (detect_raid 2 [⟨101, ("a"), some 0, 0⟩, ⟨102, ("b"), some 1, 1⟩,
      ⟨103, ("c"), some 2, 2⟩]).is_raid = false := by
    norm_num [detect_raid, analyze_username_patterns, settings, List.filter]
  have d4 : (detect_raid 3 [⟨101, ("a"), some 0, 0⟩, ⟨102, ("b"), some 1, 1⟩,
      ⟨103, ("c"), some 2, 2⟩, ⟨104, ("d"), some 3, 3⟩]).is_raid = false := by
    norm_num [detect_raid, analyze_username_patterns, settings, List.filter]
  have d5 : detect_raid 4 [⟨101, ("a"), some 0, 0⟩, ⟨102, ("b"), some 1, 1⟩,
      ⟨103, ("c"), some 2, 2⟩, ⟨104, ("d"), some 3, 3⟩, ⟨105, ("e"), some 4, 4⟩] =
      { is_raid := true, raid_type := ("new_account_wave"), confidence := 1/2,
        affected_users := [101, 102, 103, 104, 105],
        recommended_action := ("restrict_new_accounts_verify"),
        trigger_reason := toString 5 ++ (" new accounts joined") } := by
    norm_num [detect_raid, settings, List.filter]
  have d6 : (detect_raid 5 [⟨101, ("a"), some 0, 0⟩, ⟨102, ("b"), some 1, 1⟩,
      ⟨103, ("c"), some 2, 2⟩, ⟨104, ("d"), some 3, 3⟩, ⟨105, ("e"), some 4, 4⟩,
      ⟨106, ("f"), some 5, 5⟩]).is_raid = true := by
    norm_num [detect_raid, settings, List.filter]
  have dfi : (detect_raid 1004 [⟨201, ("a"), some 1000, 1000⟩,
      ⟨202, ("b"), some 1001, 1001⟩, ⟨203, ("c"), some 1002, 1002⟩,
      ⟨204, ("d"), some 1003, 1003⟩, ⟨205, ("e"), some 1004, 1004⟩]).is_raid = true := by
    norm_num [detect_raid, settings, List.filter]
  refine ⟨?_, ?_, ?_⟩ <;>
  · simp [c1_run, initial_ar_state_eq, record_join_gstate, deactivate_gstate,
      t1, t2, t3, t4, t5, t6, t8, t9, t10, t11, t12, d1, d2, d3, d4, d5, d6, dfi,
      is_raid_active_gstate, gstate_raid_status_one]
